import Mathlib

/-!
Verification of the `ranno` crate (annotations over recursive data structures).

The Rust source (src/lib.rs) is shallowly embedded as pure Lean functions:

* `Annotated C A` mirrors `struct Annotated<C, A> { child: C, anno: RefCell<Option<A>> }`,
  with the `RefCell<Option<A>>` cache cell embedded as `Option A` and the
  interior-mutability write of `anno()` made explicit by returning the updated
  container state.
* The `Annotation<C>` trait (single method `from_child(&C) -> Self`) is
  embedded as a structure holding the derivation function.
* `Annotated::anno` additionally reports how many times it invoked
  `from_child`, so laziness and memoization are directly observable.
* `AnnotatedRefMut` (the guard returned by `child_mut`) is embedded with the
  two statements of its `DerefMut::deref_mut` body as separate micro-steps:
  `invalidate` (line `self.annotated.anno = RefCell::new(None)`) followed by
  `expose` (returning `&mut self.annotated.child`; the caller's writes through
  that reference are summarised by a function `C → C`).  A guard session is a
  list of `Deref`/`DerefMut` events executed before the guard is dropped.
-/

namespace Ranno

/-- The `Annotation<C>` trait: `fn from_child(t: &C) -> Self`. -/
structure Annotation (C A : Type) where
  from_child : C → A

/-- `struct Annotated<C, A> { child: C, anno: RefCell<Option<A>> }`. -/
structure Annotated (C A : Type) where
  child : C
  anno : Option A
deriving DecidableEq

variable {C A : Type}

/-- `Annotated::new`: `Self { anno: RefCell::new(None), child }`. -/
def Annotated.new (c : C) : Annotated C A :=
  { child := c, anno := none }

/-- `Annotated::split`: `(self.child, self.anno.take())`. -/
def Annotated.split (s : Annotated C A) : C × Option A :=
  (s.child, s.anno)

/-- `Annotated::anno`: if the cache is empty, compute `A::from_child(&self.child)`
and store it, then hand out the cached value.  Returns the value handed out,
the container after the interior write, and the number of `from_child`
invocations this call performed. -/
def Annotated.annoOp (s : Annotated C A) (ann : Annotation C A) :
    A × Annotated C A × Nat :=
  match s.anno with
  | none =>
    let a := ann.from_child s.child
    (a, { s with anno := some a }, 1)
  | some a => (a, s, 0)

/-- `impl Default for Annotated`: `Self::new(C::default())`; the child's
`Default::default` value is passed explicitly. -/
def Annotated.defaultOp (d : C) : Annotated C A :=
  Annotated.new d

/-- `impl Clone for Annotated`: `Self::new(self.child.clone())` (values in the
embedding are pure, so `clone` of the child is the child itself). -/
def Annotated.cloneOp (s : Annotated C A) : Annotated C A :=
  Annotated.new s.child

/-- `impl From<C> for Annotated`: `Self::new(elem)`. -/
def Annotated.fromChildVal (c : C) : Annotated C A :=
  Annotated.new c

/-- `impl PartialEq for Annotated`: `PartialEq::eq(&self.child, &other.child)`,
with the child's equality passed explicitly. -/
def Annotated.eqOp (eqC : C → C → Bool) (x y : Annotated C A) : Bool :=
  eqC x.child y.child

/-- `impl PartialOrd for Annotated`: `PartialOrd::partial_cmp(&self.child, &other.child)`. -/
def Annotated.pcmpOp (pC : C → C → Option Ordering) (x y : Annotated C A) :
    Option Ordering :=
  pC x.child y.child

/-- `impl Ord for Annotated`: `Ord::cmp(&self.child, &other.child)`. -/
def Annotated.cmpOp (tC : C → C → Ordering) (x y : Annotated C A) : Ordering :=
  tC x.child y.child

/-- `struct AnnotatedRefMut<'a, C, A> { annotated: &'a mut Annotated<C, A> }`:
the guard exclusively borrows the container, so its state is the container's. -/
structure AnnotatedRefMut (C A : Type) where
  annotated : Annotated C A
deriving DecidableEq

/-- `Annotated::child_mut`: `AnnotatedRefMut { annotated: self }`. -/
def Annotated.child_mut (s : Annotated C A) : AnnotatedRefMut C A :=
  ⟨s⟩

/-- `impl Deref for AnnotatedRefMut`: `&self.annotated.child`. -/
def AnnotatedRefMut.derefOp (g : AnnotatedRefMut C A) : C :=
  g.annotated.child

/-- First statement of `DerefMut::deref_mut`:
`self.annotated.anno = RefCell::new(None)`. -/
def AnnotatedRefMut.invalidate (g : AnnotatedRefMut C A) : AnnotatedRefMut C A :=
  ⟨{ g.annotated with anno := none }⟩

/-- Second statement of `DerefMut::deref_mut`: return `&mut self.annotated.child`.
The caller's reads and writes through that exclusive reference are summarised
by `f : C → C` applied to the child. -/
def AnnotatedRefMut.expose (g : AnnotatedRefMut C A) (f : C → C) : AnnotatedRefMut C A :=
  ⟨{ g.annotated with child := f g.annotated.child }⟩

/-- `DerefMut::deref_mut` followed by the caller's use of the returned
`&mut C`: invalidate the cache, then the child is exposed for mutation. -/
def AnnotatedRefMut.deref_mut (g : AnnotatedRefMut C A) (f : C → C) : AnnotatedRefMut C A :=
  (g.invalidate).expose f

/-- Dropping the guard: control of the borrowed container returns to the owner;
dropping itself runs no code. -/
def AnnotatedRefMut.dropOp (g : AnnotatedRefMut C A) : Annotated C A :=
  g.annotated

/-- One interaction with a live guard: an immutable dereference (`Deref`), or a
mutable dereference (`DerefMut`) together with the writes `f` the caller makes
through the returned `&mut C` before its borrow ends. -/
inductive GuardEvent (C : Type) where
  | readChild : GuardEvent C
  | mutate : (C → C) → GuardEvent C

/-- Whether a guard event is a mutable dereference. -/
def GuardEvent.isMutate : GuardEvent C → Bool
  | .readChild => false
  | .mutate _ => true

/-- Execute one guard event. -/
def AnnotatedRefMut.step (g : AnnotatedRefMut C A) : GuardEvent C → AnnotatedRefMut C A
  | .readChild => g
  | .mutate f => g.deref_mut f

/-- Execute a guard session (the events between `child_mut` and the drop). -/
def AnnotatedRefMut.run (g : AnnotatedRefMut C A) :
    List (GuardEvent C) → AnnotatedRefMut C A
  | [] => g
  | e :: es => (g.step e).run es

/-- Execute a guard session, also logging, for each mutable dereference, the
cache slot as it stands at the instant the child is handed out for mutation
(i.e. between the two statements of `deref_mut`). -/
def AnnotatedRefMut.runLog (g : AnnotatedRefMut C A) :
    List (GuardEvent C) → AnnotatedRefMut C A × List (Option A)
  | [] => (g, [])
  | .readChild :: es => g.runLog es
  | .mutate f :: es =>
    let g1 := g.invalidate
    let r := (g1.expose f).runLog es
    (r.1, g1.annotated.anno :: r.2)

/-- Cache correctness (invariant I1): whenever the cache slot holds `a`, then
`a` is exactly `from_child` of the current child. -/
def Inv (ann : Annotation C A) (s : Annotated C A) : Prop :=
  ∀ a, s.anno = some a → a = ann.from_child s.child

/-- The container states reachable through the public API: construction
(`new`, `From<C>`, `Default`, `Clone`), annotation reads (`anno`), and full
mutable-access cycles (`child_mut`, any guard session, drop of the guard). -/
inductive Reachable (ann : Annotation C A) : Annotated C A → Prop where
  | new : ∀ c : C, Reachable ann (Annotated.new c)
  | fromChild : ∀ c : C, Reachable ann (Annotated.fromChildVal c)
  | default : ∀ d : C, Reachable ann (Annotated.defaultOp d)
  | anno : ∀ s : Annotated C A, Reachable ann s → Reachable ann (s.annoOp ann).2.1
  | clone : ∀ s : Annotated C A, Reachable ann s → Reachable ann s.cloneOp
  | guard : ∀ (s : Annotated C A) (events : List (GuardEvent C)),
      Reachable ann s → Reachable ann ((s.child_mut.run events).dropOp)

/-- A shared reference `&'a C`, identified with its referent's value. -/
structure RefShared (C : Type) where
  val : C

/-- A mutable reference `&'a mut C`, identified with its referent's value. -/
structure RefMut (C : Type) where
  val : C

/-- `Rc<C>`, identified with the value it points to. -/
structure Rc (C : Type) where
  val : C

/-- `Arc<C>`, identified with the value it points to. -/
structure Arc (C : Type) where
  val : C

/-- `Box<C>`, identified with the value it points to. -/
structure Box (C : Type) where
  val : C

/-- Blanket impl `Annotation<&'a C> for A where A: Annotation<C>`:
`A::from_child(t)` after auto-deref of `t: &&'a C`. -/
def Annotation.forRef (ann : Annotation C A) : Annotation (RefShared C) A :=
  ⟨fun t => ann.from_child t.val⟩

/-- Blanket impl `Annotation<&'a mut C> for A where A: Annotation<C>`. -/
def Annotation.forRefMut (ann : Annotation C A) : Annotation (RefMut C) A :=
  ⟨fun t => ann.from_child t.val⟩

/-- Blanket impl `Annotation<Rc<C>> for A`: `A::from_child(t.as_ref())`. -/
def Annotation.forRc (ann : Annotation C A) : Annotation (Rc C) A :=
  ⟨fun t => ann.from_child t.val⟩

/-- Blanket impl `Annotation<Arc<C>> for A`: `A::from_child(t.as_ref())`. -/
def Annotation.forArc (ann : Annotation C A) : Annotation (Arc C) A :=
  ⟨fun t => ann.from_child t.val⟩

/-- Blanket impl `Annotation<Box<C>> for A`: `A::from_child(t.as_ref())`. -/
def Annotation.forBox (ann : Annotation C A) : Annotation (Box C) A :=
  ⟨fun t => ann.from_child t.val⟩

/-! ## Helper lemmas about guard sessions -/

/-- An immutable dereference is not a mutable one. -/
@[simp]
theorem isMutate_readChild : (GuardEvent.readChild : GuardEvent C).isMutate = false := rfl

/-- A mutable dereference is one. -/
@[simp]
theorem isMutate_mutate (f : C → C) : (GuardEvent.mutate f).isMutate = true := rfl

/-- An empty cache stays empty across any sequence of guard events: no guard
event ever writes a value into the cache slot. -/
theorem anno_none_run (g : AnnotatedRefMut C A) (es : List (GuardEvent C))
    (h : g.annotated.anno = none) : ((g.run es).annotated.anno = none) := by
  induction es generalizing g with
  | nil => exact h
  | cons e es ih =>
    cases e with
    | readChild => exact ih g h
    | mutate f =>
      exact ih _ rfl

/-- A guard session containing at least one mutable dereference leaves the
cache slot empty. -/
theorem run_mutate_clears (g : AnnotatedRefMut C A) (es : List (GuardEvent C))
    (h : es.any GuardEvent.isMutate = true) : ((g.run es).annotated.anno = none) := by
  induction es generalizing g with
  | nil => simp at h
  | cons e es ih =>
    cases e with
    | readChild =>
      rw [List.any_cons] at h
      simp only [isMutate_readChild, Bool.false_or] at h
      exact ih g h
    | mutate f =>
      exact anno_none_run _ es rfl

/-- A guard session made only of immutable dereferences changes nothing. -/
theorem run_reads_id (g : AnnotatedRefMut C A) (es : List (GuardEvent C))
    (h : es.all (fun e => !e.isMutate) = true) : g.run es = g := by
  induction es generalizing g with
  | nil => rfl
  | cons e es ih =>
    cases e with
    | readChild =>
      rw [List.all_cons] at h
      simp only [isMutate_readChild, Bool.not_false, Bool.true_and] at h
      exact ih g h
    | mutate f =>
      rw [List.all_cons] at h
      simp only [isMutate_mutate, Bool.not_true, Bool.false_and] at h
      exact absurd h (by simp)

/-- The exposure log of a guard session has one entry per mutable dereference,
and every entry is `none`: the cache slot is already cleared at the instant
the child is handed out for mutation. -/
theorem runLog_spec (g : AnnotatedRefMut C A) (es : List (GuardEvent C)) :
    (g.runLog es).2 = List.replicate (es.countP (fun e => e.isMutate)) none := by
  induction es generalizing g with
  | nil => rfl
  | cons e es ih =>
    cases e with
    | readChild =>
      simp [AnnotatedRefMut.runLog, List.countP_cons, GuardEvent.isMutate, ih]
    | mutate f =>
      simp [AnnotatedRefMut.runLog, AnnotatedRefMut.invalidate, List.countP_cons,
        GuardEvent.isMutate, List.replicate_succ, ih]

/-- Logging exposures does not change how a guard session executes. -/
theorem runLog_run (g : AnnotatedRefMut C A) (es : List (GuardEvent C)) :
    (g.runLog es).1 = g.run es := by
  induction es generalizing g with
  | nil => rfl
  | cons e es ih =>
    cases e with
    | readChild => exact ih g
    | mutate f => exact ih _

/-- Cache correctness is preserved by any guard session: a mutable dereference
empties the cache before the child can change, and nothing in a session
refills it. -/
theorem inv_run (ann : Annotation C A) (g : AnnotatedRefMut C A)
    (es : List (GuardEvent C)) (h : Inv ann g.annotated) :
    Inv ann ((g.run es).annotated) := by
  induction es generalizing g with
  | nil => exact h
  | cons e es ih =>
    cases e with
    | readChild => exact ih g h
    | mutate f =>
      exact ih _ (fun a ha => by simp [AnnotatedRefMut.step, AnnotatedRefMut.deref_mut,
        AnnotatedRefMut.invalidate, AnnotatedRefMut.expose] at ha)

/-- Every container state reachable through the public API satisfies cache
correctness (invariant I1). -/
theorem reachable_inv (ann : Annotation C A) (s : Annotated C A)
    (h : Reachable ann s) : Inv ann s := by
  induction h with
  | new c => intro a ha; simp [Annotated.new] at ha
  | fromChild c => intro a ha; simp [Annotated.fromChildVal, Annotated.new] at ha
  | default d => intro a ha; simp [Annotated.defaultOp, Annotated.new] at ha
  | anno s hs ih =>
    intro a ha
    cases hsa : s.anno with
    | none =>
      simp [Annotated.annoOp, hsa] at ha ⊢
      simpa [Annotated.annoOp, hsa] using ha.symm
    | some b =>
      simp [Annotated.annoOp, hsa] at ha ⊢
      exact ih a (hsa.trans (by rw [ha]))
  | clone s hs ih => intro a ha; simp [Annotated.cloneOp, Annotated.new] at ha
  | guard s events hs ih =>
    exact inv_run ann (s.child_mut) events ih

/-! ## Claims -/

/-- C1, counterexample: `child_mut()` does NOT clear the cache at the call.
With the identity annotation over `Nat`, compute the annotation of
`Annotated::new(5)` (cache now holds `5`), then call `child_mut()` and
immediately drop the guard: at the call the cache still holds `5`, and the
subsequent `anno()` performs zero `from_child` invocations instead of
recomputing from scratch. -/
theorem claim1_counterexample :
    (((((Annotated.new 5 : Annotated Nat Nat).annoOp ⟨fun c => c⟩).2.1).child_mut).annotated.anno
          = some 5) ∧
    ((((((Annotated.new 5 : Annotated Nat Nat).annoOp ⟨fun c => c⟩).2.1).child_mut).dropOp.annoOp
          ⟨fun c => c⟩).2.2 = 0) :=
  ⟨rfl, rfl⟩

/-- C1, amended: `child_mut()` itself leaves the container (cache included)
untouched; the cache is cleared at a mutable dereference of the guard, before
the caller's writes are applied; and after a guard session containing at least
one mutable dereference is dropped, the next `anno()` call recomputes from
scratch (exactly one `from_child` invocation). -/
theorem claim1_thm (ann : Annotation C A) (s : Annotated C A)
    (events : List (GuardEvent C)) (hmut : events.any GuardEvent.isMutate = true) :
    s.child_mut.annotated = s ∧
    (∀ f : C → C, (s.child_mut.deref_mut f).annotated.anno = none) ∧
    ((s.child_mut.run events).dropOp.annoOp ann).2.2 = 1 := by
  refine ⟨rfl, fun f => rfl, ?_⟩
  have h := run_mutate_clears (s.child_mut) events hmut
  simp [Annotated.annoOp, AnnotatedRefMut.dropOp, h]

/-- C1, witness for the amended theorem: a session with one mutable
dereference on a container whose cache holds a value. -/
theorem claim1_witness :
    ([(GuardEvent.mutate (fun c => c + 1) : GuardEvent Nat)].any GuardEvent.isMutate = true) ∧
    (((({ child := 5, anno := some 5 } : Annotated Nat Nat).child_mut.run
        [GuardEvent.mutate (fun c => c + 1)]).dropOp.annoOp ⟨fun c => c⟩).2.2 = 1) :=
  ⟨rfl, (claim1_thm ⟨fun c => c⟩ { child := 5, anno := some 5 }
      [GuardEvent.mutate (fun c => c + 1)] rfl).2.2⟩

/-- C2: invariant I1 holds in every reachable container state — whenever the
cache slot holds `a`, then `a = from_child(child)` for the child's current
value (the child cannot have changed since the cache was filled, because every
mutable exposure empties the cache first) — and consequently `anno()` never
returns a stale annotation: its result is always `from_child` of the current
child. -/
theorem claim2_thm (ann : Annotation C A) (s : Annotated C A)
    (h : Reachable ann s) :
    Inv ann s ∧ (s.annoOp ann).1 = ann.from_child s.child := by
  have hinv := reachable_inv ann s h
  refine ⟨hinv, ?_⟩
  cases hs : s.anno with
  | none => simp [Annotated.annoOp, hs]
  | some a =>
    simp [Annotated.annoOp, hs]
    exact hinv a hs

/-- C2, witness: a freshly constructed container over `Nat` with the identity
annotation is reachable, satisfies I1, and `anno()` returns `from_child` of
the child. -/
theorem claim2_witness :
    Inv ⟨fun c => c⟩ (Annotated.new 3 : Annotated Nat Nat) ∧
    ((Annotated.new 3 : Annotated Nat Nat).annoOp ⟨fun c => c⟩).1 = 3 :=
  claim2_thm ⟨fun c => c⟩ (Annotated.new 3) (Reachable.new 3)

/-- C3: starting from a fresh container, two successive `anno()` calls invoke
`from_child` exactly once in total and return the same value; moreover,
immediately repeating `anno()` on any container never invokes `from_child`
again (at most one invocation per epoch). -/
theorem claim3_thm (ann : Annotation C A) (c : C) (s : Annotated C A) :
    (((Annotated.new c : Annotated C A).annoOp ann).2.2
        + ((((Annotated.new c : Annotated C A).annoOp ann).2.1).annoOp ann).2.2 = 1) ∧
    (((Annotated.new c : Annotated C A).annoOp ann).1
        = ((((Annotated.new c : Annotated C A).annoOp ann).2.1).annoOp ann).1) ∧
    (((s.annoOp ann).2.1.annoOp ann).2.2 = 0) := by
  refine ⟨rfl, rfl, ?_⟩
  cases hs : s.anno <;> simp [Annotated.annoOp, hs]

/-- C4: construction is lazy — `new`, `From<C>` and `Default` all store the
child with an empty cache and cannot invoke `from_child` (they do not depend
on the annotation capability at all); the single `from_child` invocation
happens at the first `anno()` call. -/
theorem claim4_thm (ann : Annotation C A) (c d : C) :
    (Annotated.new c : Annotated C A).anno = none ∧
    (Annotated.fromChildVal c : Annotated C A) = Annotated.new c ∧
    (Annotated.defaultOp d : Annotated C A) = Annotated.new d ∧
    ((Annotated.new c : Annotated C A).annoOp ann).2.2 = 1 :=
  ⟨rfl, rfl, rfl, rfl⟩

/-- C5: adapter transparency — a capability for `C` lifts through `&C`,
`&mut C`, `Rc<C>`, `Arc<C>` and `Box<C>`, and deriving through each wrapper
gives exactly the result of deriving directly over `C`. -/
theorem claim5_thm (ann : Annotation C A) (c : C) :
    (ann.forRef).from_child ⟨c⟩ = ann.from_child c ∧
    (ann.forRefMut).from_child ⟨c⟩ = ann.from_child c ∧
    (ann.forRc).from_child ⟨c⟩ = ann.from_child c ∧
    (ann.forArc).from_child ⟨c⟩ = ann.from_child c ∧
    (ann.forBox).from_child ⟨c⟩ = ann.from_child c :=
  ⟨rfl, rfl, rfl, rfl, rfl⟩

/-- C6: `split()` returns the owned child together with exactly the cached
annotation — `some a` precisely when the cache held `a`, `none` precisely when
the cache was empty — and, being independent of the annotation capability, it
triggers no `from_child` invocation. -/
theorem claim6_thm (s : Annotated C A) :
    (s.split).1 = s.child ∧
    (∀ a : A, (s.split).2 = some a ↔ s.anno = some a) ∧
    ((s.split).2 = none ↔ s.anno = none) :=
  ⟨rfl, fun _ => Iff.rfl, Iff.rfl⟩

/-- C7: `clone()` copies the child and always starts with an empty cache, even
when the source's cache is populated; the clone's next `anno()` call therefore
recomputes (one `from_child` invocation) independently of the source. -/
theorem claim7_thm (ann : Annotation C A) (s : Annotated C A) :
    s.cloneOp.child = s.child ∧
    s.cloneOp.anno = none ∧
    (s.cloneOp.annoOp ann).2.2 = 1 ∧
    (s.cloneOp.annoOp ann).1 = ann.from_child s.child :=
  ⟨rfl, rfl, rfl, rfl⟩

/-- C8: equality and ordering compare the children only — `eq`, `partial_cmp`
and `cmp` of containers are exactly those of their children — so two
containers with equal children but differently populated caches (one holding a
value, the other empty) compare equal whenever the child equality is
reflexive. -/
theorem claim8_thm (eqC : C → C → Bool) (pC : C → C → Option Ordering)
    (tC : C → C → Ordering) (x y : Annotated C A) (c : C) (a : A)
    (hrefl : ∀ d : C, eqC d d = true) :
    (Annotated.eqOp eqC x y = eqC x.child y.child) ∧
    (Annotated.pcmpOp pC x y = pC x.child y.child) ∧
    (Annotated.cmpOp tC x y = tC x.child y.child) ∧
    (Annotated.eqOp eqC { child := c, anno := some a } { child := c, anno := none } = true) :=
  ⟨rfl, rfl, rfl, hrefl c⟩

/-- C8, witness: over `Nat` with decidable equality, a container whose cache
holds `7` equals one with an empty cache and the same child `2`. -/
theorem claim8_witness :
    (∀ d : Nat, decide (d = d) = true) ∧
    (Annotated.eqOp (fun x y => decide (x = y))
      ({ child := 2, anno := some 7 } : Annotated Nat Nat)
      { child := 2, anno := none } = true) :=
  ⟨by simp, (claim8_thm (fun x y => decide (x = y)) (fun x y => some (compare x y)) compare
      ({ child := 1, anno := none } : Annotated Nat Nat) { child := 2, anno := some 9 } 2 7
      (by simp)).2.2.2⟩

/-- C9, counterexample: a guard acquired by `child_mut()` and dropped without
any mutable dereference exposes the child zero times, not exactly once. -/
theorem claim9_counterexample :
    ((Annotated.new 0 : Annotated Nat Nat).child_mut.runLog []).2.length ≠ 1 := by
  decide

/-- C9, amended: during a guard's lifetime the child is exposed for mutation
once per mutable dereference — any number of times, including zero — and at
each exposure the cache slot has already been cleared (the exposure log equals
a list of `none` entries, one per mutable dereference); logging the exposures
does not alter the session's outcome. -/
theorem claim9_thm (g : AnnotatedRefMut C A) (events : List (GuardEvent C)) :
    (g.runLog events).2 = List.replicate (events.countP (fun e => e.isMutate)) none ∧
    (g.runLog events).1 = g.run events :=
  ⟨runLog_spec g events, runLog_run g events⟩

/-- C10: `child_mut()`, the guard's immutable dereference, and dropping the
guard all leave the container unchanged; a guard session made only of
immutable dereferences preserves a previously computed annotation, and the
next `anno()` returns it with zero `from_child` invocations. -/
theorem claim10_thm (ann : Annotation C A) (s : Annotated C A) (a : A)
    (events : List (GuardEvent C))
    (hread : events.all (fun e => !e.isMutate) = true) (ha : s.anno = some a) :
    s.child_mut.annotated = s ∧
    s.child_mut.derefOp = s.child ∧
    s.child_mut.dropOp = s ∧
    (s.child_mut.run events).dropOp = s ∧
    ((s.child_mut.run events).dropOp.annoOp ann) = (a, s, 0) := by
  have hrun : s.child_mut.run events = s.child_mut := run_reads_id (s.child_mut) events hread
  refine ⟨rfl, rfl, rfl, ?_, ?_⟩
  · rw [hrun]; rfl
  · rw [hrun]
    simp [Annotated.annoOp, AnnotatedRefMut.dropOp, Annotated.child_mut, ha]

/-- C10, witness: a guard over a container caching `4`, used for one immutable
read and dropped, preserves the cache, and the next `anno()` returns `4` with
zero recomputations. -/
theorem claim10_witness :
    ([(GuardEvent.readChild : GuardEvent Nat)].all (fun e => !e.isMutate) = true) ∧
    (({ child := 4, anno := some 4 } : Annotated Nat Nat).anno = some 4) ∧
    (((({ child := 4, anno := some 4 } : Annotated Nat Nat).child_mut.run
        [GuardEvent.readChild]).dropOp.annoOp ⟨fun c => c⟩)
      = (4, { child := 4, anno := some 4 }, 0)) :=
  ⟨rfl, rfl, (claim10_thm ⟨fun c => c⟩ { child := 4, anno := some 4 } 4
      [GuardEvent.readChild] rfl rfl).2.2.2.2⟩

end Ranno
